import Mathlib

/-!
Formal model of the CommerceDashboard churn-prediction service.

Shallow embedding of the four source files:
- server/ml/predict.py : model load at module scope and the function predict_churn
- server/app.py : the Flask route handler for POST /predict-churn
- server/ml/train_churn_model.py : the fixed six-row training dataset
- server/test_post.py : the sample request body

Conventions: JSON numbers and numpy floats are embedded as rationals (Rat);
class labels as Int; a Python dict as an association list; a raised Python
exception as the error side of Except, carrying the stringified exception.
-/

/-- A customer_data dict: JSON object with string keys and numeric values. -/
def CustomerData : Type := List (String × Rat)

/-- The record returned by predict_churn (predict.py lines 19-22). -/
structure PredictionRecord where
  churn_risk : Int
  confidence : Rat
deriving Repr, DecidableEq

/-- The in-memory model handle: the two stock classifier methods invoked by
predict_churn, specialised to the single row passed to them (predict.py
lines 16-17 call them on a one-row matrix and read index 0 of the result). -/
structure Model where
  predict : List Rat → Int
  predict_proba : List Rat → List Rat

/-- The ASCII apostrophe character used by Python repr of a dict key. -/
def quoteStr : String := String.singleton (Char.ofNat 39)

/-- str(KeyError(k)) in Python: the key wrapped in apostrophes. -/
def keyErrorMsg (k : String) : String := quoteStr ++ k ++ quoteStr

/-- customer_data[k]: a dict subscript that raises KeyError when absent. -/
def dictGet (d : CustomerData) (k : String) : Except String Rat :=
  match List.lookup k d with
  | some v => Except.ok v
  | none => Except.error (keyErrorMsg k)

/-- The key order in which predict_churn reads the four fields when packing
the feature row (predict.py lines 11-14). -/
def predictFeatureOrder : List String :=
  ["avg_order_value", "purchase_frequency", "days_since_last_purchase", "total_spent"]

/-- np.array([[d[avg_order_value], d[purchase_frequency],
d[days_since_last_purchase], d[total_spent]]]) — predict.py lines 10-15.
Subscripts are evaluated left to right and the first missing key raises. -/
def buildFeatures (d : CustomerData) : Except String (List Rat) := do
  let a ← dictGet d "avg_order_value"
  let p ← dictGet d "purchase_frequency"
  let r ← dictGet d "days_since_last_purchase"
  let t ← dictGet d "total_spent"
  Except.ok [a, p, r, t]

/-- Python max() over a list: raises ValueError on an empty sequence. -/
def pyMax (xs : List Rat) : Except String Rat :=
  match xs with
  | [] => Except.error "max() arg is an empty sequence"
  | x :: rest => Except.ok (rest.foldl max x)

/-- Python round-half-to-even on an exact rational value. -/
def roundHalfEven (x : Rat) : Int :=
  if x - ⌊x⌋ < 1 / 2 then ⌊x⌋
  else if 1 / 2 < x - ⌊x⌋ then ⌊x⌋ + 1
  else if ⌊x⌋ % 2 = 0 then ⌊x⌋ else ⌊x⌋ + 1

/-- round(v, 2) in Python: round to two decimal places. -/
def pyRound2 (x : Rat) : Rat := (roundHalfEven (x * 100) : Rat) / 100

/-- predict_churn (predict.py lines 8-22): pack the four fields into a
single-row feature vector, call the model, return the label cast to int and
the maximum class probability rounded to 2 decimal places. -/
def predict_churn (model : Model) (customer_data : CustomerData) :
    Except String PredictionRecord := do
  let features ← buildFeatures customer_data
  let prediction := model.predict features
  let probability := model.predict_proba features
  let conf ← pyMax probability
  Except.ok { churn_risk := prediction, confidence := pyRound2 conf }

/-- A JSON value as produced by jsonify. -/
inductive Json where
  | num (q : Rat)
  | str (s : String)
  | obj (fields : List (String × Json))

/-- The request body as seen by the handler after request.get_json():
either a parsed JSON object or a failure (malformed body or non-object
shape), carrying the stringified exception. -/
inductive ParsedBody where
  | obj (d : CustomerData)
  | malformed (msg : String)

/-- jsonify(result) for the success dict of predict_churn. -/
def jsonOfPrediction (r : PredictionRecord) : Json :=
  Json.obj [("churn_risk", Json.num (r.churn_risk : Rat)), ("confidence", Json.num r.confidence)]

/-- The route handler predict (app.py lines 9-15): try the parse and the
prediction; on success respond 200 with the record, on any exception respond
400 with the stringified exception under the error key. -/
def predict (model : Model) (body : ParsedBody) : Nat × Json :=
  match body with
  | ParsedBody.malformed msg => (400, Json.obj [("error", Json.str msg)])
  | ParsedBody.obj d =>
    match predict_churn model d with
    | Except.ok result => (200, jsonOfPrediction result)
    | Except.error e => (400, Json.obj [("error", Json.str e)])

/-- The fixed relative artifact path (predict.py line 5). -/
def modelPath : String := "server/ml/churn_model.pkl"

/-- Whether the name pickle is bound at module scope in predict.py.
Line 1 of predict.py reads a commented-out import, so it is not. -/
def pickleImported : Bool := false

/-- A Python exception raised during module initialization. -/
inductive PyInitError where
  | fileNotFoundError
  | nameError
deriving Repr, DecidableEq

/-- The module-scope load (predict.py lines 5-6). open() runs first: a
missing file raises FileNotFoundError before the load statement executes.
Otherwise the statement model = pickle.load(f) looks up the name pickle,
which raises NameError because its import is commented out; only if that
name were bound would the external unpickling (parameter unpickle, the
behaviour of the pickle library on the file bytes) run. -/
def loadModel (unpickle : List Nat → Except PyInitError Model)
    (fs : String → Option (List Nat)) : Except PyInitError Model :=
  match fs modelPath with
  | none => Except.error PyInitError.fileNotFoundError
  | some bytes =>
    if pickleImported then unpickle bytes
    else Except.error PyInitError.nameError

/-- The six-row training table of train_churn_model.py lines 6-12, columns
in dict insertion order. -/
def trainingData : List (String × List Int) :=
  [("avg_order_value", [50, 20, 300, 10, 100, 85]),
   ("purchase_frequency", [10, 2, 1, 0, 4, 5]),
   ("days_since_last_purchase", [5, 60, 90, 120, 30, 15]),
   ("total_spent", [500, 40, 300, 10, 400, 420]),
   ("churned", [0, 1, 1, 1, 0, 0])]

/-- Column order of X = data.drop(churned, axis=1) in train_churn_model.py. -/
def X_columns : List String :=
  (trainingData.map Prod.fst).filter (fun c => c ≠ "churned")

/-- The label column y = data[churned]. -/
def y : List Int := (List.lookup "churned" trainingData).getD []

/-- The distinct class labels the classifier is fitted on (sklearn
classes_, the sorted distinct values of y). -/
def trainedClasses : List Int := y.dedup.insertionSort (· ≤ ·)

/-- Contract of a classifier fitted on the six-row dataset: the predicted
label is one of the fitted classes and predict_proba returns one
probability per class, non-negative and summing to 1. -/
def IsTrainedChurnModel (m : Model) : Prop :=
  ∀ fv : List Rat,
    m.predict fv ∈ trainedClasses ∧
    (m.predict_proba fv).length = trainedClasses.length ∧
    (∀ q ∈ m.predict_proba fv, 0 ≤ q) ∧
    (m.predict_proba fv).sum = 1

/-- A concrete model handle used for evaluating the theorems. -/
def constModel : Model :=
  { predict := fun _ => 0, predict_proba := fun _ => [1, 0] }

/-- The sample request body of predict.py lines 26-31 and test_post.py. -/
def sample : CustomerData :=
  [("avg_order_value", 30), ("purchase_frequency", 3),
   ("days_since_last_purchase", 45), ("total_spent", 150)]


/-! Helper lemmas about the numeric building blocks. -/

lemma foldl_max_mem (l : List Rat) (a : Rat) : l.foldl max a ∈ a :: l := by
  induction l generalizing a with
  | nil => simp
  | cons h t ih =>
    rw [List.foldl_cons]
    rcases List.mem_cons.1 (ih (max a h)) with hm | hm
    · rcases max_choice a h with hc | hc
      · rw [hm, hc]; exact List.mem_cons_self _ _
      · rw [hm, hc]; exact List.mem_cons_of_mem _ (List.mem_cons_self _ _)
    · exact List.mem_cons_of_mem _ (List.mem_cons_of_mem _ hm)

lemma init_le_foldl_max (l : List Rat) (a : Rat) : a ≤ l.foldl max a := by
  induction l generalizing a with
  | nil => simp
  | cons h t ih =>
    rw [List.foldl_cons]
    exact le_trans (le_max_left a h) (ih (max a h))

lemma mem_le_foldl_max (l : List Rat) (a b : Rat) (hb : b ∈ l) :
    b ≤ l.foldl max a := by
  induction l generalizing a with
  | nil => cases hb
  | cons h t ih =>
    rw [List.foldl_cons]
    rcases List.mem_cons.1 hb with rfl | hm
    · exact le_trans (le_max_right a b) (init_le_foldl_max t (max a b))
    · exact ih (max a h) hm

lemma pyMax_spec (xs : List Rat) (m : Rat) (h : pyMax xs = Except.ok m) :
    m ∈ xs ∧ ∀ b ∈ xs, b ≤ m := by
  cases xs with
  | nil => simp [pyMax] at h
  | cons x rest =>
    simp only [pyMax, Except.ok.injEq] at h
    subst h
    refine ⟨foldl_max_mem rest x, ?_⟩
    intro b hb
    rcases List.mem_cons.1 hb with rfl | hm
    · exact init_le_foldl_max rest b
    · exact mem_le_foldl_max rest x b hm

lemma le_roundHalfEven (x : Rat) (n : Int) (hx : (n : Rat) ≤ x) :
    n ≤ roundHalfEven x := by
  have hfl : n ≤ ⌊x⌋ := Int.le_floor.2 hx
  unfold roundHalfEven
  split_ifs <;> omega

lemma roundHalfEven_le (x : Rat) (n : Int) (hx : x ≤ (n : Rat)) :
    roundHalfEven x ≤ n := by
  have hfl : ⌊x⌋ ≤ n := by
    have h1 : ⌊x⌋ ≤ ⌊(n : Rat)⌋ := Int.floor_le_floor hx
    simpa using h1
  have key : ¬ x - (⌊x⌋ : Rat) < 1 / 2 → ⌊x⌋ + 1 ≤ n := by
    intro h1
    rcases lt_or_eq_of_le hfl with h | h
    · omega
    · exfalso
      apply h1
      have hfx : x ≤ (⌊x⌋ : Rat) := by
        rw [h]; exact hx
      have hxf : (⌊x⌋ : Rat) ≤ x := Int.floor_le x
      have : x - (⌊x⌋ : Rat) = 0 := by linarith
      rw [this]; norm_num
  unfold roundHalfEven
  split_ifs with h1 h2 h3
  · exact hfl
  · exact key h1
  · exact hfl
  · exact key h1

lemma pyRound2_nonneg (x : Rat) (hx : 0 ≤ x) : 0 ≤ pyRound2 x := by
  have h : (0 : Int) ≤ roundHalfEven (x * 100) := by
    apply le_roundHalfEven
    push_cast
    linarith
  unfold pyRound2
  have h2 : (0 : Rat) ≤ (roundHalfEven (x * 100) : Rat) := by exact_mod_cast h
  positivity

lemma pyRound2_le_one (x : Rat) (hx : x ≤ 1) : pyRound2 x ≤ 1 := by
  have h : roundHalfEven (x * 100) ≤ (100 : Int) := by
    apply roundHalfEven_le
    push_cast
    linarith
  have h2 : (roundHalfEven (x * 100) : Rat) ≤ 100 := by exact_mod_cast h
  unfold pyRound2
  linarith

lemma half_le_pyRound2 (x : Rat) (hx : 1 / 2 ≤ x) : 1 / 2 ≤ pyRound2 x := by
  have h : (50 : Int) ≤ roundHalfEven (x * 100) := by
    apply le_roundHalfEven
    push_cast
    linarith
  have h2 : (50 : Rat) ≤ (roundHalfEven (x * 100) : Rat) := by exact_mod_cast h
  unfold pyRound2
  linarith

lemma keyErrorMsg_ne_empty (k : String) : keyErrorMsg k ≠ "" := by
  intro h
  have hd := congrArg String.data h
  simp [keyErrorMsg, quoteStr, String.singleton] at hd

/-! Claim theorems. -/

/-- Claim C1: for every input mapping containing the four required numeric
fields, predict_churn returns a record whose churn_risk equals the model
predicted label for the single-row feature vector (cast to integer) and
whose confidence equals the maximum class probability for that row, rounded
to 2 decimal places. -/
theorem predict_churn_success_shape (model : Model) (d : CustomerData)
    (a p r t : Rat)
    (ha : List.lookup "avg_order_value" d = some a)
    (hp : List.lookup "purchase_frequency" d = some p)
    (hr : List.lookup "days_since_last_purchase" d = some r)
    (ht : List.lookup "total_spent" d = some t)
    (q : Rat) (qs : List Rat)
    (hq : model.predict_proba [a, p, r, t] = q :: qs) :
    ∃ m : Rat,
      pyMax (model.predict_proba [a, p, r, t]) = Except.ok m ∧
      m ∈ model.predict_proba [a, p, r, t] ∧
      (∀ b ∈ model.predict_proba [a, p, r, t], b ≤ m) ∧
      predict_churn model d =
        Except.ok { churn_risk := model.predict [a, p, r, t],
                    confidence := pyRound2 m } := by
  have hmax : pyMax (model.predict_proba [a, p, r, t]) =
      Except.ok (qs.foldl max q) := by
    rw [hq]; rfl
  obtain ⟨hmem, hub⟩ := pyMax_spec _ _ hmax
  refine ⟨qs.foldl max q, hmax, hmem, hub, ?_⟩
  simp only [predict_churn, buildFeatures, dictGet, ha, hp, hr, ht]
  simp only [bind, Except.bind, hq]
  rw [hq] at hmax
  simp [pyMax] at hmax ⊢

/-- Witness for C1 at the sample body and a concrete model handle. -/
theorem predict_churn_success_shape_witness :
    ∃ m : Rat,
      pyMax (constModel.predict_proba [30, 3, 45, 150]) = Except.ok m ∧
      m ∈ constModel.predict_proba [30, 3, 45, 150] ∧
      (∀ b ∈ constModel.predict_proba [30, 3, 45, 150], b ≤ m) ∧
      predict_churn constModel sample =
        Except.ok { churn_risk := constModel.predict [30, 3, 45, 150],
                    confidence := pyRound2 m } :=
  predict_churn_success_shape constModel sample 30 3 45 150
    rfl rfl rfl rfl 1 [0] rfl

/-- Claim C2: predict_churn reads the four fields in exactly the fixed
order [avg_order_value, purchase_frequency, days_since_last_purchase,
total_spent] when packing the feature row, and this order equals the
column order of the training matrix X. -/
theorem feature_order_matches_training :
    (∀ d : CustomerData, buildFeatures d = predictFeatureOrder.mapM (dictGet d)) ∧
    X_columns = predictFeatureOrder := by
  constructor
  · intro d
    rfl
  · rfl

/-- Claim C8: predict_churn is deterministic — two calls on identical
input mappings against the same model handle return identical results. -/
theorem predict_churn_deterministic (model : Model) (d : CustomerData)
    (r₁ r₂ : Except String PredictionRecord)
    (h₁ : predict_churn model d = r₁) (h₂ : predict_churn model d = r₂) :
    r₁ = r₂ := by
  rw [← h₁, ← h₂]

/-- Witness for C8 at the sample body and a concrete model handle. -/
theorem predict_churn_deterministic_witness :
    predict_churn constModel sample = predict_churn constModel sample :=
  predict_churn_deterministic constModel sample _ _ rfl rfl

/-- Claim C3: the handler responds 200 with a body holding churn_risk and
confidence exactly when parsing and prediction raise nothing, and responds
400 with the stringified exception under the error key exactly when an
exception is raised during parsing or prediction. -/
theorem predict_route_dichotomy (model : Model) (body : ParsedBody) :
    (∃ d pr, body = ParsedBody.obj d ∧ predict_churn model d = Except.ok pr ∧
      predict model body =
        (200, Json.obj [("churn_risk", Json.num (pr.churn_risk : Rat)),
                        ("confidence", Json.num pr.confidence)])) ∨
    (∃ msg, (body = ParsedBody.malformed msg ∨
        ∃ d, body = ParsedBody.obj d ∧ predict_churn model d = Except.error msg) ∧
      predict model body = (400, Json.obj [("error", Json.str msg)])) := by
  cases body with
  | malformed msg => exact Or.inr ⟨msg, Or.inl rfl, rfl⟩
  | obj d =>
    cases hpc : predict_churn model d with
    | ok pr =>
      exact Or.inl ⟨d, pr, rfl, hpc, by simp [predict, hpc, jsonOfPrediction]⟩
    | error e =>
      exact Or.inr ⟨e, Or.inr ⟨d, rfl, hpc⟩, by simp [predict, hpc]⟩

/-- Claim C6: a request object missing at least one of the four required
fields yields HTTP 400 with a non-empty error string. -/
theorem missing_field_yields_400 (model : Model) (d : CustomerData)
    (h : List.lookup "avg_order_value" d = none ∨
         List.lookup "purchase_frequency" d = none ∨
         List.lookup "days_since_last_purchase" d = none ∨
         List.lookup "total_spent" d = none) :
    ∃ msg, predict model (ParsedBody.obj d) =
        (400, Json.obj [("error", Json.str msg)]) ∧ msg ≠ "" := by
  cases h1 : List.lookup "avg_order_value" d with
  | none =>
    refine ⟨keyErrorMsg "avg_order_value", ?_, keyErrorMsg_ne_empty _⟩
    simp [predict, predict_churn, buildFeatures, dictGet, h1, bind, Except.bind]
  | some a =>
    cases h2 : List.lookup "purchase_frequency" d with
    | none =>
      refine ⟨keyErrorMsg "purchase_frequency", ?_, keyErrorMsg_ne_empty _⟩
      simp [predict, predict_churn, buildFeatures, dictGet, h1, h2, bind, Except.bind]
    | some p =>
      cases h3 : List.lookup "days_since_last_purchase" d with
      | none =>
        refine ⟨keyErrorMsg "days_since_last_purchase", ?_, keyErrorMsg_ne_empty _⟩
        simp [predict, predict_churn, buildFeatures, dictGet, h1, h2, h3, bind, Except.bind]
      | some r =>
        cases h4 : List.lookup "total_spent" d with
        | none =>
          refine ⟨keyErrorMsg "total_spent", ?_, keyErrorMsg_ne_empty _⟩
          simp [predict, predict_churn, buildFeatures, dictGet, h1, h2, h3, h4, bind, Except.bind]
        | some t =>
          exfalso
          rcases h with h | h | h | h <;> simp_all

/-- Witness for C6 at the empty request object. -/
theorem missing_field_yields_400_witness :
    ∃ msg, predict constModel (ParsedBody.obj []) =
        (400, Json.obj [("error", Json.str msg)]) ∧ msg ≠ "" :=
  missing_field_yields_400 constModel [] (Or.inl rfl)

/-- The concrete model handle satisfies the fitted-classifier contract. -/
lemma constModel_trained : IsTrainedChurnModel constModel := by
  intro fv
  refine ⟨?_, ?_, ?_, ?_⟩
  · show (0 : Int) ∈ trainedClasses
    decide
  · show ([1, 0] : List Rat).length = trainedClasses.length
    decide
  · show ∀ q ∈ ([1, 0] : List Rat), 0 ≤ q
    intro q hq
    rcases List.mem_cons.1 hq with rfl | hq
    · norm_num
    · rcases List.mem_cons.1 hq with rfl | hq
      · norm_num
      · cases hq
  · show ([1, 0] : List Rat).sum = 1
    simp

/-- Concrete evaluation of predict_churn at the sample body against the
concrete model handle. -/
lemma predict_churn_constModel_sample :
    predict_churn constModel sample =
      Except.ok { churn_risk := 0, confidence := 1 } := by
  have h1 : buildFeatures sample = Except.ok [30, 3, 45, 150] := rfl
  have h2 : pyMax [(1 : Rat), 0] = Except.ok (max (1 : Rat) 0) := rfl
  have h3 : pyRound2 (max (1 : Rat) 0) = 1 := by
    rw [max_eq_left (by norm_num : (0 : Rat) ≤ 1)]
    unfold pyRound2 roundHalfEven
    norm_num
  simp only [predict_churn, h1, bind, Except.bind, h2, h3, constModel]

/-- Claim C7: every successful predict_churn result has churn_risk exactly
0 or 1, and confidence in [0,1] with at most 2 decimal digits. -/
theorem predict_churn_output_range (model : Model) (d : CustomerData)
    (pr : PredictionRecord)
    (hm : IsTrainedChurnModel model)
    (hok : predict_churn model d = Except.ok pr) :
    (pr.churn_risk = 0 ∨ pr.churn_risk = 1) ∧
    0 ≤ pr.confidence ∧ pr.confidence ≤ 1 ∧
    ∃ n : Int, pr.confidence = (n : Rat) / 100 := by
  cases hbf : buildFeatures d with
  | error e => simp [predict_churn, hbf, bind, Except.bind] at hok
  | ok fv =>
    obtain ⟨hcls, hlen, hnn, hsum⟩ := hm fv
    cases hpm : pyMax (model.predict_proba fv) with
    | error e => simp [predict_churn, hbf, hpm, bind, Except.bind] at hok
    | ok m =>
      have hpr : pr = { churn_risk := model.predict fv, confidence := pyRound2 m } := by
        simp [predict_churn, hbf, hpm, bind, Except.bind] at hok
        exact hok.symm
      obtain ⟨hmem, _⟩ := pyMax_spec _ _ hpm
      have hm0 : 0 ≤ m := hnn m hmem
      have hm1 : m ≤ 1 := by
        have h := List.single_le_sum hnn m hmem
        rw [hsum] at h
        exact h
      refine ⟨?_, ?_, ?_, ?_⟩
      · rw [hpr]
        have hc : trainedClasses = [0, 1] := by decide
        rw [hc] at hcls
        simpa using hcls
      · rw [hpr]
        exact pyRound2_nonneg m hm0
      · rw [hpr]
        exact pyRound2_le_one m hm1
      · rw [hpr]
        exact ⟨roundHalfEven (m * 100), rfl⟩

/-- Witness for C7 at the sample body and a concrete model handle. -/
theorem predict_churn_output_range_witness :
    (({ churn_risk := 0, confidence := 1 } : PredictionRecord).churn_risk = 0 ∨
     ({ churn_risk := 0, confidence := 1 } : PredictionRecord).churn_risk = 1) ∧
    0 ≤ ({ churn_risk := 0, confidence := 1 } : PredictionRecord).confidence ∧
    ({ churn_risk := 0, confidence := 1 } : PredictionRecord).confidence ≤ 1 ∧
    ∃ n : Int, ({ churn_risk := 0, confidence := 1 } : PredictionRecord).confidence =
      (n : Rat) / 100 :=
  predict_churn_output_range constModel sample
    { churn_risk := 0, confidence := 1 } constModel_trained
    predict_churn_constModel_sample

/-- Claim C9: on the sample input, against any classifier fitted on the
six-row dataset, prediction succeeds with churn_risk in {0,1} and
confidence between 0.5 and 1. -/
theorem sample_prediction_bounds (model : Model)
    (hm : IsTrainedChurnModel model) :
    ∃ pr, predict_churn model sample = Except.ok pr ∧
      (pr.churn_risk = 0 ∨ pr.churn_risk = 1) ∧
      1 / 2 ≤ pr.confidence ∧ pr.confidence ≤ 1 := by
  have hbf : buildFeatures sample = Except.ok [30, 3, 45, 150] := rfl
  obtain ⟨hcls, hlen, hnn, hsum⟩ := hm [30, 3, 45, 150]
  have h2 : trainedClasses.length = 2 := by decide
  rw [h2] at hlen
  obtain ⟨p0, p1, hps⟩ := List.length_eq_two.1 hlen
  have hmax : pyMax (model.predict_proba [30, 3, 45, 150]) =
      Except.ok (max p0 p1) := by
    rw [hps]; rfl
  have hsum2 : p0 + p1 = 1 := by
    rw [hps] at hsum; simpa using hsum
  have hnn0 : 0 ≤ p0 := hnn p0 (by rw [hps]; simp)
  have hnn1 : 0 ≤ p1 := hnn p1 (by rw [hps]; simp)
  have hub : max p0 p1 ≤ 1 := by
    rcases max_choice p0 p1 with h | h <;> rw [h] <;> linarith
  have hlb : 1 / 2 ≤ max p0 p1 := by
    have ha := le_max_left p0 p1
    have hb := le_max_right p0 p1
    linarith
  refine ⟨{ churn_risk := model.predict [30, 3, 45, 150],
            confidence := pyRound2 (max p0 p1) }, ?_, ?_, ?_, ?_⟩
  · simp [predict_churn, hbf, bind, Except.bind, hmax]
  · have hc : trainedClasses = [0, 1] := by decide
    rw [hc] at hcls
    simpa using hcls
  · exact half_le_pyRound2 _ hlb
  · exact pyRound2_le_one _ hub

/-- Witness for C9 at a concrete model handle. -/
theorem sample_prediction_bounds_witness :
    ∃ pr, predict_churn constModel sample = Except.ok pr ∧
      (pr.churn_risk = 0 ∨ pr.churn_risk = 1) ∧
      1 / 2 ≤ pr.confidence ∧ pr.confidence ≤ 1 :=
  sample_prediction_bounds constModel constModel_trained

/-- Claim C4 (code bug): even when the artifact file is present and the
external unpickler would succeed on its bytes, the module-scope load still
fails with NameError, because the pickle import on line 1 of predict.py is
commented out. The spec says initialization succeeds on a valid artifact. -/
theorem load_fails_despite_valid_artifact :
    loadModel (fun _ => Except.ok constModel) (fun _ => some [0]) =
      Except.error PyInitError.nameError := rfl

/-- Counterexample for C5: with the artifact file absent, the load fails
with FileNotFoundError (raised by open before the name pickle is looked
up), not with NameError as the claim states for every execution. -/
theorem load_missing_file_not_nameError :
    loadModel (fun _ => Except.ok constModel) (fun _ => none) =
      Except.error PyInitError.fileNotFoundError ∧
    PyInitError.fileNotFoundError ≠ PyInitError.nameError :=
  ⟨rfl, by decide⟩

/-- Claim C5 (amended): module initialization always fails — with
FileNotFoundError when the artifact file is missing, and with NameError
whenever the file is present (valid or corrupt), since the pickle import
is commented out; the error branch of the load is always reached. -/
theorem load_always_fails
    (unpickle : List Nat → Except PyInitError Model)
    (fs : String → Option (List Nat)) :
    loadModel unpickle fs =
      Except.error (match fs modelPath with
        | none => PyInitError.fileNotFoundError
        | some _ => PyInitError.nameError) := by
  unfold loadModel
  cases h : fs modelPath with
  | none => rfl
  | some bytes => rfl
